import Mathlib

/-
Verification of the ShopSmart retail-agent refund workflow.

Shallow embedding of the refund core of the repository:
  - app/models.py    : Order / RefundTicket rows and their status enums
  - app/agent.py     : the `request_refund` customer tool
  - app/main.py      : the `admin_review_refund` admin endpoint

The ledger store (a SQL database in the source) is embedded as association
lists keyed by integer primary key; `session.get` becomes a first-match
lookup by key, and `session.add` + `session.commit` of a modified row
becomes a keyed in-place update.  Monetary amounts (`float` in the source)
are embedded as rationals; the `datetime` columns are omitted because no
operation of the refund core reads them.
-/

/-- Order status enum (app/models.py, `OrderStatus`). -/
inductive OrderStatus
  | processing
  | shipped
  | delivered
  | returned
deriving DecidableEq, Repr

/-- Ticket status enum (app/models.py, `TicketStatus`); `open_` renders
the source's `OPEN`, renamed because `open` is a Lean keyword. -/
inductive TicketStatus
  | open_
  | pending_approval
  | approved
  | rejected
  | closed
deriving DecidableEq, Repr

/-- Order row (app/models.py, `Order`), minus the `order_date` column. -/
structure Order where
  customer_id : Nat
  product_id : Nat
  quantity : Nat
  total_price : ℚ
  status : OrderStatus
deriving DecidableEq, Repr

/-- Refund-ticket row (app/models.py, `RefundTicket`), minus `created_at`. -/
structure RefundTicket where
  customer_id : Nat
  order_id : Nat
  amount : ℚ
  reason : String
  status : TicketStatus
deriving DecidableEq, Repr

/-- The ledger store: order and ticket tables keyed by integer primary key,
plus the autoincrement counter that assigns the next ticket id. -/
structure DB where
  orders : List (Nat × Order)
  tickets : List (Nat × RefundTicket)
  next_ticket_id : Nat
deriving DecidableEq, Repr

/-- First-match lookup by key in a keyed table (`session.get(Model, key)`). -/
def lookupBy {α : Type} (l : List (Nat × α)) (k : Nat) : Option α :=
  match l with
  | [] => none
  | p :: rest => if p.1 = k then some p.2 else lookupBy rest k

/-- Keyed in-place row update (`session.add` of a modified row + commit). -/
def updateBy {α : Type} (l : List (Nat × α)) (k : Nat) (v : α) : List (Nat × α) :=
  match l with
  | [] => []
  | p :: rest => (if p.1 = k then (k, v) else p) :: updateBy rest k v

/-- `session.get(Order, oid)`. -/
def DB.getOrder (db : DB) (oid : Nat) : Option Order :=
  lookupBy db.orders oid

/-- Persist a modified order row. -/
def DB.setOrder (db : DB) (oid : Nat) (o : Order) : DB :=
  { db with orders := updateBy db.orders oid o }

/-- `session.get(RefundTicket, tid)`. -/
def DB.getTicket (db : DB) (tid : Nat) : Option RefundTicket :=
  lookupBy db.tickets tid

/-- Persist a modified ticket row. -/
def DB.setTicket (db : DB) (tid : Nat) (t : RefundTicket) : DB :=
  { db with tickets := updateBy db.tickets tid t }

/-- Outcomes of `request_refund` (app/agent.py): the source returns one of
five distinct user-facing strings; each constructor renders one of them,
carrying the data interpolated into the message. -/
inductive RefundOutcome
  | orderNotFound
  | forbidden
  | alreadyReturned
  | settled (amount : ℚ) (order_id : Nat)
  | escalated (amount : ℚ) (order_id : Nat)
deriving DecidableEq, Repr

/-- The `request_refund` agent tool (app/agent.py, lines 161-211):
validate the order (existence, ownership, not already returned), then
either auto-settle the refund (price strictly below 50: order status
becomes `returned`) or escalate by inserting a `pending_approval` ticket
whose amount copies the order's current total price. -/
def request_refund (db : DB) (user_id : Nat) (order_id : Nat) (reason : String) :
    RefundOutcome × DB :=
  match db.getOrder order_id with
  | none => (RefundOutcome.orderNotFound, db)
  | some order =>
    if order.customer_id ≠ user_id then
      (RefundOutcome.forbidden, db)
    else if order.status = OrderStatus.returned then
      (RefundOutcome.alreadyReturned, db)
    else if order.total_price < 50 then
      (RefundOutcome.settled order.total_price order_id,
        db.setOrder order_id { order with status := OrderStatus.returned })
    else
      (RefundOutcome.escalated order.total_price order_id,
        { db with
            tickets := db.tickets ++
              [(db.next_ticket_id,
                { customer_id := user_id
                  order_id := order_id
                  amount := order.total_price
                  reason := reason
                  status := TicketStatus.pending_approval })]
            next_ticket_id := db.next_ticket_id + 1 })

/-- Outcomes of `admin_review_refund` (app/main.py): 404 for a missing
ticket, 400 for a non-pending ticket or an unknown decision string, and
the two success JSON bodies (each naming the linked order id). -/
inductive ResolutionOutcome
  | ticketNotFound
  | alreadyProcessed
  | invalidDecision
  | approvedOutcome (order_id : Nat)
  | rejectedOutcome (order_id : Nat)
deriving DecidableEq, Repr

/-- The `admin_review_refund` endpoint (app/main.py, lines 88-133):
load the ticket (404 if absent), guard that it is still
`pending_approval` (400 `AlreadyProcessed` otherwise), then apply the
decision string: "approve" marks the ticket approved and, when the linked
order row still exists, flips that order to `returned`; "reject" marks
only the ticket rejected; anything else is an invalid-decision error. -/
def admin_review_refund (db : DB) (ticket_id : Nat) (decision : String) :
    ResolutionOutcome × DB :=
  match db.getTicket ticket_id with
  | none => (ResolutionOutcome.ticketNotFound, db)
  | some ticket =>
    if ticket.status ≠ TicketStatus.pending_approval then
      (ResolutionOutcome.alreadyProcessed, db)
    else if decision = "approve" then
      let db1 := db.setTicket ticket_id { ticket with status := TicketStatus.approved }
      let db2 :=
        match db1.getOrder ticket.order_id with
        | none => db1
        | some order =>
          db1.setOrder ticket.order_id { order with status := OrderStatus.returned }
      (ResolutionOutcome.approvedOutcome ticket.order_id, db2)
    else if decision = "reject" then
      (ResolutionOutcome.rejectedOutcome ticket.order_id,
        db.setTicket ticket_id { ticket with status := TicketStatus.rejected })
    else
      (ResolutionOutcome.invalidDecision, db)

/-- One externally triggerable mutating operation of the refund core. -/
inductive Op
  | refund (user_id : Nat) (order_id : Nat) (reason : String)
  | resolve (ticket_id : Nat) (decision : String)

/-- State effect of one operation (result message discarded). -/
def runOp (db : DB) : Op → DB
  | Op.refund u oid r => (request_refund db u oid r).2
  | Op.resolve tid d => (admin_review_refund db tid d).2

/-- State effect of a sequence of operations. -/
def runOps (db : DB) (ops : List Op) : DB :=
  ops.foldl runOp db

/-- Sample order worth $30, owned by customer 7 (spec scenario, §8). -/
def sampleOrder1 : Order :=
  { customer_id := 7, product_id := 11, quantity := 1, total_price := 30,
    status := OrderStatus.processing }

/-- Sample order worth $120, owned by customer 7 (spec scenario, §8). -/
def sampleOrder2 : Order :=
  { customer_id := 7, product_id := 12, quantity := 2, total_price := 120,
    status := OrderStatus.processing }

/-- Sample order worth exactly $50, already returned, owned by customer 7. -/
def sampleOrder3 : Order :=
  { customer_id := 7, product_id := 13, quantity := 1, total_price := 50,
    status := OrderStatus.returned }

/-- Sample pending ticket for order 2 (amount $120). -/
def sampleTicket : RefundTicket :=
  { customer_id := 7, order_id := 2, amount := 120, reason := "damaged",
    status := TicketStatus.pending_approval }

/-- Sample rejected ticket for order 1. -/
def sampleTicket2 : RefundTicket :=
  { customer_id := 7, order_id := 1, amount := 30, reason := "late",
    status := TicketStatus.rejected }

/-- Sample pending ticket for the already-returned order 3. -/
def sampleTicket3 : RefundTicket :=
  { customer_id := 7, order_id := 3, amount := 50, reason := "scratched",
    status := TicketStatus.pending_approval }

/-- Sample pending ticket whose linked order (id 42) does not exist. -/
def sampleTicket4 : RefundTicket :=
  { customer_id := 7, order_id := 42, amount := 75, reason := "lost",
    status := TicketStatus.pending_approval }

/-- Sample ledger state used to witness the theorems below. -/
def sampleDB : DB :=
  { orders := [(1, sampleOrder1), (2, sampleOrder2), (3, sampleOrder3)],
    tickets := [(5, sampleTicket), (6, sampleTicket2), (7, sampleTicket3), (8, sampleTicket4)],
    next_ticket_id := 9 }

/-- Updating key `k` of a keyed table does not disturb lookups of any other key. -/
theorem lookupBy_updateBy_ne {α : Type} (l : List (Nat × α)) (k k' : Nat) (v : α)
    (h : k' ≠ k) : lookupBy (updateBy l k v) k' = lookupBy l k' := by
  induction l with
  | nil => rfl
  | cons p rest ih =>
    obtain ⟨a, b⟩ := p
    by_cases ha : a = k
    · subst ha
      simp [updateBy, lookupBy, Ne.symm h, ih]
    · by_cases ha' : a = k'
      · simp [updateBy, lookupBy, ha, ha', h]
      · simp [updateBy, lookupBy, ha, ha', ih]

/-- After updating a present key `k` to `v`, looking up `k` yields `v`. -/
theorem lookupBy_updateBy_self {α : Type} (l : List (Nat × α)) (k : Nat) (v₀ v : α)
    (h : lookupBy l k = some v₀) : lookupBy (updateBy l k v) k = some v := by
  induction l with
  | nil => simp [lookupBy] at h
  | cons p rest ih =>
    obtain ⟨a, b⟩ := p
    by_cases ha : a = k
    · simp [updateBy, lookupBy, ha]
    · simp only [lookupBy, if_neg ha] at h
      simp [updateBy, lookupBy, ha, ih h]

/-- Writing a ticket row leaves the order table untouched. -/
theorem getOrder_setTicket (db : DB) (tid : Nat) (t : RefundTicket) (oid : Nat) :
    (db.setTicket tid t).getOrder oid = db.getOrder oid := rfl

/-- Writing an order row leaves the ticket table untouched. -/
theorem getTicket_setOrder (db : DB) (oid : Nat) (o : Order) (tid : Nat) :
    (db.setOrder oid o).getTicket tid = db.getTicket tid := rfl

/-- Reading back a ticket row just written (the row existed before). -/
theorem getTicket_setTicket_self (db : DB) (tid : Nat) (t t' : RefundTicket)
    (h : db.getTicket tid = some t) :
    (db.setTicket tid t').getTicket tid = some t' :=
  lookupBy_updateBy_self _ _ _ _ h

/-- Reading back an order row just written (the row existed before). -/
theorem getOrder_setOrder_self (db : DB) (oid : Nat) (o o' : Order)
    (h : db.getOrder oid = some o) :
    (db.setOrder oid o').getOrder oid = some o' :=
  lookupBy_updateBy_self _ _ _ _ h

/-- Writing one ticket row leaves every other ticket row untouched. -/
theorem getTicket_setTicket_ne (db : DB) (tid tid' : Nat) (t : RefundTicket)
    (h : tid' ≠ tid) :
    (db.setTicket tid t).getTicket tid' = db.getTicket tid' :=
  lookupBy_updateBy_ne _ _ _ _ h

/-- Each operation either leaves the order table unchanged or performs one
keyed update that sets some present order's status to `returned`; no branch
of either operation writes any other order status. -/
theorem runOp_orders_cases (db : DB) (op : Op) :
    ((runOp db op).orders = db.orders) ∨
    ∃ k o₂, lookupBy db.orders k = some o₂ ∧
      (runOp db op).orders = updateBy db.orders k { o₂ with status := OrderStatus.returned } := by
  cases op with
  | refund u oid r =>
    cases h2 : db.getOrder oid with
    | none => left; simp [runOp, request_refund, h2]
    | some o₂ =>
      by_cases h3 : o₂.customer_id = u
      · by_cases h4 : o₂.status = OrderStatus.returned
        · left; simp [runOp, request_refund, h2, h3, h4]
        · by_cases h5 : o₂.total_price < 50
          · right
            refine ⟨oid, o₂, h2, ?_⟩
            simp [runOp, request_refund, h2, h3, h4, h5, DB.setOrder]
          · left; simp [runOp, request_refund, h2, h3, h4, h5]
      · left; simp [runOp, request_refund, h2, h3]
  | resolve tid d =>
    cases h2 : db.getTicket tid with
    | none => left; simp [runOp, admin_review_refund, h2]
    | some t =>
      by_cases h3 : t.status = TicketStatus.pending_approval
      · by_cases h4 : d = "approve"
        · subst h4
          cases h5 : db.getOrder t.order_id with
          | none =>
            have h5' : lookupBy db.orders t.order_id = none := h5
            left
            simp [runOp, admin_review_refund, h2, h3, h5', DB.setTicket, DB.getOrder]
          | some o₂ =>
            have h5' : lookupBy db.orders t.order_id = some o₂ := h5
            right
            refine ⟨t.order_id, o₂, h5, ?_⟩
            simp [runOp, admin_review_refund, h2, h3, h5',
              DB.setOrder, DB.setTicket, DB.getOrder]
        · by_cases h6 : d = "reject"
          · subst h6
            left
            simp [runOp, admin_review_refund, h2, h3, DB.setTicket]
          · left; simp [runOp, admin_review_refund, h2, h3, h4, h6]
      · left; simp [runOp, admin_review_refund, h2, h3]

/-- A single operation either leaves an order row as it was or flips its
status to `returned`; no operation moves a status away from `returned`. -/
theorem runOp_getOrder_preserved (db : DB) (op : Op) (oid : Nat) (o : Order)
    (h : db.getOrder oid = some o) :
    (runOp db op).getOrder oid = some o ∨
    (runOp db op).getOrder oid = some { o with status := OrderStatus.returned } := by
  have h' : lookupBy db.orders oid = some o := h
  rcases runOp_orders_cases db op with hsame | ⟨k, o₂, hk, hupd⟩
  · left
    show lookupBy (runOp db op).orders oid = some o
    rw [hsame]
    exact h'
  · by_cases he : oid = k
    · subst he
      right
      have heq : o = o₂ := Option.some.inj (h'.symm.trans hk)
      subst heq
      show lookupBy (runOp db op).orders oid = some { o with status := OrderStatus.returned }
      rw [hupd]
      exact lookupBy_updateBy_self _ _ _ _ hk
    · left
      show lookupBy (runOp db op).orders oid = some o
      rw [hupd, lookupBy_updateBy_ne _ _ _ _ he]
      exact h'

/-- Claim C1: for every ticket whose status is `pending_approval` (with its
linked order present), resolving it with decision "approve" reports the
approved outcome, sets the ticket's status to `approved` and the linked
order's status to `returned`, exactly once; a second resolve call on the
same ticket id, with any decision string, returns `AlreadyProcessed` and
leaves the whole database state unchanged. -/
theorem resolve_approve_exactly_once
    (db : DB) (tid : Nat) (t : RefundTicket) (o : Order) (d : String)
    (ht : db.getTicket tid = some t)
    (hp : t.status = TicketStatus.pending_approval)
    (ho : db.getOrder t.order_id = some o) :
    (admin_review_refund db tid "approve").1 = ResolutionOutcome.approvedOutcome t.order_id ∧
    ((admin_review_refund db tid "approve").2).getTicket tid
      = some { t with status := TicketStatus.approved } ∧
    ((admin_review_refund db tid "approve").2).getOrder t.order_id
      = some { o with status := OrderStatus.returned } ∧
    admin_review_refund ((admin_review_refund db tid "approve").2) tid d
      = (ResolutionOutcome.alreadyProcessed, (admin_review_refund db tid "approve").2) := by
  have h1 : admin_review_refund db tid "approve"
      = (ResolutionOutcome.approvedOutcome t.order_id,
         (db.setTicket tid { t with status := TicketStatus.approved }).setOrder t.order_id
           { o with status := OrderStatus.returned }) := by
    simp [admin_review_refund, ht, hp, getOrder_setTicket, ho]
  have h2 : ((db.setTicket tid { t with status := TicketStatus.approved }).setOrder t.order_id
        { o with status := OrderStatus.returned }).getTicket tid
      = some { t with status := TicketStatus.approved } := by
    rw [getTicket_setOrder]
    exact getTicket_setTicket_self db tid t _ ht
  refine ⟨by rw [h1], ?_, ?_, ?_⟩
  · rw [h1]; exact h2
  · rw [h1]
    exact getOrder_setOrder_self _ t.order_id o _ ho
  · rw [h1]
    simp [admin_review_refund, h2]

theorem resolve_approve_exactly_once_witness :
    (admin_review_refund sampleDB 5 "approve").1 = ResolutionOutcome.approvedOutcome 2 ∧
    ((admin_review_refund sampleDB 5 "approve").2).getTicket 5
      = some { sampleTicket with status := TicketStatus.approved } ∧
    ((admin_review_refund sampleDB 5 "approve").2).getOrder 2
      = some { sampleOrder2 with status := OrderStatus.returned } ∧
    admin_review_refund ((admin_review_refund sampleDB 5 "approve").2) 5 "reject"
      = (ResolutionOutcome.alreadyProcessed, (admin_review_refund sampleDB 5 "approve").2) :=
  resolve_approve_exactly_once sampleDB 5 sampleTicket sampleOrder2 "reject"
    (by decide) (by decide) (by decide)

/-- Claim C2: for every order passing the refund preconditions (present,
owned by the caller, not already returned), the refund settles
automatically exactly when the order's total price is strictly below the
$50 threshold, escalates to approval otherwise, and in particular a total
price of exactly $50 escalates rather than auto-settling. -/
theorem request_refund_policy_threshold
    (db : DB) (user_id order_id : Nat) (reason : String) (o : Order)
    (ho : db.getOrder order_id = some o)
    (hown : o.customer_id = user_id)
    (hnr : o.status ≠ OrderStatus.returned) :
    ((request_refund db user_id order_id reason).1
        = RefundOutcome.settled o.total_price order_id ↔ o.total_price < 50) ∧
    (¬ o.total_price < 50 →
      (request_refund db user_id order_id reason).1
        = RefundOutcome.escalated o.total_price order_id) ∧
    (o.total_price = 50 →
      (request_refund db user_id order_id reason).1
        = RefundOutcome.escalated o.total_price order_id) := by
  refine ⟨?_, ?_, ?_⟩
  · by_cases hlt : o.total_price < 50 <;>
      simp [request_refund, ho, hown, hnr, hlt]
  · intro hge
    simp [request_refund, ho, hown, hnr, hge]
  · intro h50
    have hge : ¬ o.total_price < 50 := by rw [h50]; exact lt_irrefl 50
    simp [request_refund, ho, hown, hnr, hge]

theorem request_refund_policy_threshold_witness :
    ((request_refund sampleDB 7 2 "damaged").1
        = RefundOutcome.settled sampleOrder2.total_price 2 ↔ sampleOrder2.total_price < 50) ∧
    (¬ sampleOrder2.total_price < 50 →
      (request_refund sampleDB 7 2 "damaged").1
        = RefundOutcome.escalated sampleOrder2.total_price 2) ∧
    (sampleOrder2.total_price = 50 →
      (request_refund sampleDB 7 2 "damaged").1
        = RefundOutcome.escalated sampleOrder2.total_price 2) :=
  request_refund_policy_threshold sampleDB 7 2 "damaged" sampleOrder2
    (by decide) (by decide) (by decide)

/-- Claim C3: for every order with total price at least the $50 threshold,
status not `returned`, and owned by the caller, the refund request appends
exactly one new ticket — keyed by the fresh autoincrement id, with status
`pending_approval` and amount equal to the order's total price at the
moment of the call — and leaves the order table (hence the order's status)
unchanged. -/
theorem request_refund_escalation_creates_one_pending_ticket
    (db : DB) (user_id order_id : Nat) (reason : String) (o : Order)
    (ho : db.getOrder order_id = some o)
    (hown : o.customer_id = user_id)
    (hnr : o.status ≠ OrderStatus.returned)
    (hge : 50 ≤ o.total_price) :
    request_refund db user_id order_id reason
      = (RefundOutcome.escalated o.total_price order_id,
         { db with
             tickets := db.tickets ++
               [(db.next_ticket_id,
                 { customer_id := user_id, order_id := order_id,
                   amount := o.total_price, reason := reason,
                   status := TicketStatus.pending_approval })]
             next_ticket_id := db.next_ticket_id + 1 }) ∧
    ((request_refund db user_id order_id reason).2).getOrder order_id = some o := by
  have hnlt : ¬ o.total_price < 50 := not_lt.mpr hge
  have h1 : request_refund db user_id order_id reason
      = (RefundOutcome.escalated o.total_price order_id,
         { db with
             tickets := db.tickets ++
               [(db.next_ticket_id,
                 { customer_id := user_id, order_id := order_id,
                   amount := o.total_price, reason := reason,
                   status := TicketStatus.pending_approval })]
             next_ticket_id := db.next_ticket_id + 1 }) := by
    simp [request_refund, ho, hown, hnr, hnlt]
  refine ⟨h1, ?_⟩
  rw [h1]
  exact ho

theorem request_refund_escalation_creates_one_pending_ticket_witness :
    request_refund sampleDB 7 2 "damaged"
      = (RefundOutcome.escalated sampleOrder2.total_price 2,
         { sampleDB with
             tickets := sampleDB.tickets ++
               [(sampleDB.next_ticket_id,
                 { customer_id := 7, order_id := 2,
                   amount := sampleOrder2.total_price, reason := "damaged",
                   status := TicketStatus.pending_approval })]
             next_ticket_id := sampleDB.next_ticket_id + 1 }) ∧
    ((request_refund sampleDB 7 2 "damaged").2).getOrder 2 = some sampleOrder2 :=
  request_refund_escalation_creates_one_pending_ticket sampleDB 7 2 "damaged" sampleOrder2
    (by decide) (by decide) (by decide) (by norm_num [sampleOrder2])

/-- Claim C4: for every order whose status is already `returned`, a refund
request by the owning customer returns the informational `AlreadyReturned`
outcome (a plain result, not an error), creates no ticket, and leaves the
entire database state unchanged. -/
theorem request_refund_already_returned_noop
    (db : DB) (user_id order_id : Nat) (reason : String) (o : Order)
    (ho : db.getOrder order_id = some o)
    (hown : o.customer_id = user_id)
    (hret : o.status = OrderStatus.returned) :
    request_refund db user_id order_id reason = (RefundOutcome.alreadyReturned, db) := by
  simp [request_refund, ho, hown, hret]

theorem request_refund_already_returned_noop_witness :
    request_refund sampleDB 7 3 "scratched" = (RefundOutcome.alreadyReturned, sampleDB) :=
  request_refund_already_returned_noop sampleDB 7 3 "scratched" sampleOrder3
    (by decide) (by decide) (by decide)

/-- Claim C5: for every refund request where the order's owning customer id
differs from the requesting customer id, the call returns `Forbidden` —
whatever the order's other fields and status are — and the database state
is unchanged. -/
theorem request_refund_forbidden_cross_customer
    (db : DB) (user_id order_id : Nat) (reason : String) (o : Order)
    (ho : db.getOrder order_id = some o)
    (hne : o.customer_id ≠ user_id) :
    request_refund db user_id order_id reason = (RefundOutcome.forbidden, db) := by
  simp [request_refund, ho, hne]

theorem request_refund_forbidden_cross_customer_witness :
    request_refund sampleDB 8 1 "not mine" = (RefundOutcome.forbidden, sampleDB) :=
  request_refund_forbidden_cross_customer sampleDB 8 1 "not mine" sampleOrder1
    (by decide) (by decide)

/-- Claim C6: for every `pending_approval` ticket whose linked order record
is missing, approving still succeeds — the outcome is the approved result
and the ticket transitions to `approved` — while the order-side mutation is
skipped: the order table is exactly as before. -/
theorem resolve_approve_missing_order_degrades
    (db : DB) (tid : Nat) (t : RefundTicket)
    (ht : db.getTicket tid = some t)
    (hp : t.status = TicketStatus.pending_approval)
    (hno : db.getOrder t.order_id = none) :
    admin_review_refund db tid "approve"
      = (ResolutionOutcome.approvedOutcome t.order_id,
         db.setTicket tid { t with status := TicketStatus.approved }) ∧
    ((admin_review_refund db tid "approve").2).orders = db.orders ∧
    ((admin_review_refund db tid "approve").2).getTicket tid
      = some { t with status := TicketStatus.approved } := by
  have h1 : admin_review_refund db tid "approve"
      = (ResolutionOutcome.approvedOutcome t.order_id,
         db.setTicket tid { t with status := TicketStatus.approved }) := by
    simp [admin_review_refund, ht, hp, getOrder_setTicket, hno]
  refine ⟨h1, ?_, ?_⟩
  · rw [h1]; rfl
  · rw [h1]
    exact getTicket_setTicket_self db tid t _ ht

theorem resolve_approve_missing_order_degrades_witness :
    admin_review_refund sampleDB 8 "approve"
      = (ResolutionOutcome.approvedOutcome 42,
         sampleDB.setTicket 8 { sampleTicket4 with status := TicketStatus.approved }) ∧
    ((admin_review_refund sampleDB 8 "approve").2).orders = sampleDB.orders ∧
    ((admin_review_refund sampleDB 8 "approve").2).getTicket 8
      = some { sampleTicket4 with status := TicketStatus.approved } :=
  resolve_approve_missing_order_degrades sampleDB 8 sampleTicket4
    (by decide) (by decide) (by decide)

/-- Claim C7: for every `pending_approval` ticket, rejecting it sets only
that ticket's status to `rejected`: the whole order table (hence the linked
order's status) is identical before and after, and every other ticket row
is untouched. -/
theorem resolve_reject_only_ticket
    (db : DB) (tid : Nat) (t : RefundTicket)
    (ht : db.getTicket tid = some t)
    (hp : t.status = TicketStatus.pending_approval) :
    admin_review_refund db tid "reject"
      = (ResolutionOutcome.rejectedOutcome t.order_id,
         db.setTicket tid { t with status := TicketStatus.rejected }) ∧
    ((admin_review_refund db tid "reject").2).orders = db.orders ∧
    ((admin_review_refund db tid "reject").2).getTicket tid
      = some { t with status := TicketStatus.rejected } ∧
    (∀ tid', tid' ≠ tid →
      ((admin_review_refund db tid "reject").2).getTicket tid' = db.getTicket tid') := by
  have h1 : admin_review_refund db tid "reject"
      = (ResolutionOutcome.rejectedOutcome t.order_id,
         db.setTicket tid { t with status := TicketStatus.rejected }) := by
    simp [admin_review_refund, ht, hp]
  refine ⟨h1, ?_, ?_, ?_⟩
  · rw [h1]; rfl
  · rw [h1]
    exact getTicket_setTicket_self db tid t _ ht
  · intro tid' hne
    rw [h1]
    exact getTicket_setTicket_ne db tid tid' _ hne

theorem resolve_reject_only_ticket_witness :
    admin_review_refund sampleDB 5 "reject"
      = (ResolutionOutcome.rejectedOutcome 2,
         sampleDB.setTicket 5 { sampleTicket with status := TicketStatus.rejected }) ∧
    ((admin_review_refund sampleDB 5 "reject").2).orders = sampleDB.orders ∧
    ((admin_review_refund sampleDB 5 "reject").2).getTicket 5
      = some { sampleTicket with status := TicketStatus.rejected } ∧
    (∀ tid', tid' ≠ 5 →
      ((admin_review_refund sampleDB 5 "reject").2).getTicket tid' = sampleDB.getTicket tid') :=
  resolve_reject_only_ticket sampleDB 5 sampleTicket (by decide) (by decide)

/-- Claim C8: the order status `returned` is absorbing — for every order
whose status is `returned` and every sequence of refund-request and
ticket-resolution operations, the order still exists afterwards and its
status is still `returned`; no operation of this system moves an order's
status away from `returned`. -/
theorem returned_status_absorbing
    (db : DB) (oid : Nat) (o : Order) (ops : List Op)
    (h : db.getOrder oid = some o)
    (hr : o.status = OrderStatus.returned) :
    ∃ o', (runOps db ops).getOrder oid = some o' ∧ o'.status = OrderStatus.returned := by
  induction ops generalizing db o with
  | nil => exact ⟨o, h, hr⟩
  | cons op rest ih =>
    rcases runOp_getOrder_preserved db op oid o h with h1 | h1
    · exact ih (runOp db op) o h1 hr
    · exact ih (runOp db op) { o with status := OrderStatus.returned } h1 rfl

theorem returned_status_absorbing_witness :
    ∃ o', (runOps sampleDB
        [Op.refund 7 3 "again", Op.resolve 7 "approve", Op.refund 7 1 "size",
         Op.resolve 5 "approve", Op.resolve 8 "reject"]).getOrder 3 = some o' ∧
      o'.status = OrderStatus.returned :=
  returned_status_absorbing sampleDB 3 sampleOrder3 _ (by decide) (by decide)

/-- Claim C9: approving a `pending_approval` ticket whose linked order
exists sets that order's status to `returned` unconditionally — the order's
current status is arbitrary, including already `returned` — with no guard
and the same approved outcome in every case. -/
theorem resolve_approve_order_unconditionally_returned
    (db : DB) (tid : Nat) (t : RefundTicket) (o : Order)
    (ht : db.getTicket tid = some t)
    (hp : t.status = TicketStatus.pending_approval)
    (ho : db.getOrder t.order_id = some o) :
    (admin_review_refund db tid "approve").1 = ResolutionOutcome.approvedOutcome t.order_id ∧
    ((admin_review_refund db tid "approve").2).getOrder t.order_id
      = some { o with status := OrderStatus.returned } := by
  have h1 : admin_review_refund db tid "approve"
      = (ResolutionOutcome.approvedOutcome t.order_id,
         (db.setTicket tid { t with status := TicketStatus.approved }).setOrder t.order_id
           { o with status := OrderStatus.returned }) := by
    simp [admin_review_refund, ht, hp, getOrder_setTicket, ho]
  refine ⟨by rw [h1], ?_⟩
  rw [h1]
  exact getOrder_setOrder_self _ t.order_id o _ ho

theorem resolve_approve_order_unconditionally_returned_witness :
    (admin_review_refund sampleDB 7 "approve").1 = ResolutionOutcome.approvedOutcome 3 ∧
    ((admin_review_refund sampleDB 7 "approve").2).getOrder 3
      = some { sampleOrder3 with status := OrderStatus.returned } :=
  resolve_approve_order_unconditionally_returned sampleDB 7 sampleTicket3 sampleOrder3
    (by decide) (by decide) (by decide)

/-- Claim C10: for every resolve call whose decision string is neither
"approve" nor "reject", the call fails with the invalid-decision error and
the database is unchanged — and this validation runs only after the
existence and `pending_approval` guards, so the same invalid decision
aimed at a non-pending ticket reports `AlreadyProcessed` instead. -/
theorem resolve_invalid_decision_after_state_guards
    (db : DB) (tid : Nat) (t : RefundTicket) (d : String)
    (ht : db.getTicket tid = some t)
    (hda : d ≠ "approve")
    (hdr : d ≠ "reject") :
    (t.status = TicketStatus.pending_approval →
      admin_review_refund db tid d = (ResolutionOutcome.invalidDecision, db)) ∧
    (t.status ≠ TicketStatus.pending_approval →
      admin_review_refund db tid d = (ResolutionOutcome.alreadyProcessed, db)) := by
  constructor
  · intro hp
    simp [admin_review_refund, ht, hp, hda, hdr]
  · intro hnp
    simp [admin_review_refund, ht, hnp]

theorem resolve_invalid_decision_after_state_guards_witness :
    (sampleTicket2.status = TicketStatus.pending_approval →
      admin_review_refund sampleDB 6 "maybe" = (ResolutionOutcome.invalidDecision, sampleDB)) ∧
    (sampleTicket2.status ≠ TicketStatus.pending_approval →
      admin_review_refund sampleDB 6 "maybe" = (ResolutionOutcome.alreadyProcessed, sampleDB)) :=
  resolve_invalid_decision_after_state_guards sampleDB 6 sampleTicket2 "maybe"
    (by decide) (by decide) (by decide)
